import Mathlib

/-!
Shallow embedding of the streamlit-ecr-ecs-deployment-cdk repository
(AWS CDK stacks in TypeScript) and proofs about the declarative
configuration it synthesises.

The embedding follows the source files:
* `src/lib/streamlit-ecr-ecs-fargate-deployment-cdk-stack.ts`
  (top-level Fargate deployment stack and the ECR registry nested stack),
* `src/lib/streamlit-ecr-ecs-apprunner-deployment-cdk-stack.ts`,
* `src/unnamed/part_000` (two variants of
  `CdkFargateFrontWithVpcDeploymentStack`; the second, edge-enabled variant
  carries the CloudFront custom header and the two ALB listener rules).

JavaScript runtime details that matter to the claims are modelled
explicitly: `parseInt` with its prefix-truncation and NaN behaviour,
string coercion of `undefined`, and the fact that a TypeScript non-null
assertion (`!`) is erased at runtime.
-/

/-- A JavaScript number as it occurs in the port-handling code:
either an integer value or NaN (the result of a failed `parseInt`). -/
inductive JSNum where
  | num (i : Int)
  | nan
  deriving DecidableEq, Repr

/-- The longest leading run of decimal digits of a character list. -/
def leadingDigits : List Char → List Char
  | [] => []
  | c :: cs => if c.isDigit then c :: leadingDigits cs else []

/-- Digit characters to the natural number they denote (base 10). -/
def digitsToNat (ds : List Char) : Nat :=
  ds.foldl (fun acc c => 10 * acc + (c.toNat - 48)) 0

/-- JavaScript `parseInt` with the default radix 10: skip leading
whitespace, read an optional sign, then the longest run of decimal
digits; if that run is empty the result is NaN, otherwise the denoted
integer.  A numeric prefix of a longer string is silently truncated to
the prefix. -/
def parseIntJS (s : String) : JSNum :=
  let cs := s.toList.dropWhile (fun c => c.isWhitespace)
  match cs with
  | '-' :: rest =>
    match leadingDigits rest with
    | [] => JSNum.nan
    | ds => JSNum.num (-(digitsToNat ds : Int))
  | '+' :: rest =>
    match leadingDigits rest with
    | [] => JSNum.nan
    | ds => JSNum.num (digitsToNat ds : Int)
  | _ =>
    match leadingDigits cs with
    | [] => JSNum.nan
    | ds => JSNum.num (digitsToNat ds : Int)

/-- JavaScript string coercion of a possibly-`undefined` string value:
`undefined` coerces to the string "undefined" (as happens when
`parseInt` receives `undefined`). -/
def jsString : Option String → String
  | some s => s
  | none => "undefined"

/-! ## Registry unit: `StreamlitEcrDeploymentCdkStack`
(src/lib/streamlit-ecr-ecs-fargate-deployment-cdk-stack.ts, second
document: the ECR nested stack). -/

/-- Modelled from the spec: the constant `LATEST_IMAGE_VERSION` is
imported from `bin/streamlit-ecr-ecs-deployment-cdk`, which is not under
`src/`; the spec and README state the sentinel image version is
"latest" (IMAGE_VERSION "default sentinel `latest`"). -/
def LATEST_IMAGE_VERSION : String := "latest"

/-- Tag status of an ECR lifecycle rule (`ecr.TagStatus`). -/
inductive TagStatus where
  | untagged
  | any
  | tagged
  deriving DecidableEq, Repr

/-- One ECR lifecycle rule as declared through `addLifecycleRule`:
priority, tag status, optional maximum image age in days, optional
maximum image count. -/
structure LifecycleRule where
  rulePriority : Nat
  tagStatus : TagStatus
  maxImageAgeDays : Option Nat
  maxImageCount : Option Nat
  deriving DecidableEq, Repr

/-- Configuration record threaded into the registry stack
(`StreamlitEcrStackProps`). -/
structure StreamlitEcrStackProps where
  repositoryName : String
  appName : String
  imageVersion : String
  environment : String
  deployRegion : String
  platformString : String
  deriving DecidableEq, Repr

/-- The two lifecycle rules the registry stack adds, in declaration
order (source lines: `addLifecycleRule({ maxImageAge: 7 days,
rulePriority: 1, tagStatus: UNTAGGED })` then `addLifecycleRule({
maxImageCount: 4, rulePriority: 2, tagStatus: ANY })`).  The calls do
not read any property, so the list is the same for every
configuration. -/
def ecrLifecycleRules (_props : StreamlitEcrStackProps) : List LifecycleRule :=
  [ { rulePriority := 1, tagStatus := TagStatus.untagged,
      maxImageAgeDays := some 7, maxImageCount := none },
    { rulePriority := 2, tagStatus := TagStatus.any,
      maxImageAgeDays := none, maxImageCount := some 4 } ]

/-- The list of image versions pushed to the registry: the requested
version alone when it is the sentinel, otherwise the requested version
followed by the sentinel (source: `props.imageVersion ===
LATEST_IMAGE_VERSION ? [props.imageVersion] : [props.imageVersion,
LATEST_IMAGE_VERSION]`). -/
def deployImageVersions (imageVersion : String) : List String :=
  if imageVersion = LATEST_IMAGE_VERSION then [imageVersion]
  else [imageVersion, LATEST_IMAGE_VERSION]

/-- One `ecrDeploy.ECRDeployment` declaration: a source image URI and a
destination tagged image reference. -/
structure ECRDeployment where
  src : String
  dest : String
  deriving DecidableEq, Repr

/-- The ECR deployments the registry stack declares: one per entry of
`deployImageVersions`, each taking its source from the single
`dockerImageAsset.imageUri` and tagging the repository URI with the
version (source: the `for (const deployImageVersion of
deployImageVersions)` loop). -/
def ecrDeployments (imageUri repositoryUri imageVersion : String) : List ECRDeployment :=
  (deployImageVersions imageVersion).map
    (fun v => { src := imageUri, dest := repositoryUri ++ ":" ++ v })

/-! ## Configuration resolution
(`CdkStreamlitFargateDeploymentStack` and
`CdkStreamlitEcrEcsAppRunnerDeploymentStack`). -/

/-- The process environment: a partial map from variable names to
string values; `none` is an absent variable (`undefined`). -/
def ProcessEnv : Type := String → Option String

/-- The `IEnvTypes` record as it exists at runtime.  The source builds
it with `process.env.NAME!`; the TypeScript non-null assertion is
erased at runtime, so each field is exactly the (possibly absent)
environment value. -/
structure IEnvTypes where
  ECR_REPOSITORY_NAME : Option String
  APP_NAME : Option String
  IMAGE_VERSION : Option String
  PORT : Option String
  deriving DecidableEq, Repr

/-- Runtime behaviour of the `envTyped` construction in both top-level
stacks: a total function, each field read straight from the process
environment (the `!` assertions perform no runtime check). -/
def mkEnvTyped (env : ProcessEnv) : IEnvTypes :=
  { ECR_REPOSITORY_NAME := env "ECR_REPOSITORY_NAME"
    APP_NAME := env "APP_NAME"
    IMAGE_VERSION := env "IMAGE_VERSION"
    PORT := env "PORT" }

/-- The part of `StreamlitEcsStackProps` computed from the environment
by the top-level stacks; `containerPort` is `parseInt(envTyped.PORT)`
with no validation (when PORT is absent, `parseInt` receives
`undefined`, which coerces to the string "undefined" and parses to
NaN). -/
structure EcsStackConfig where
  repositoryName : Option String
  appName : Option String
  imageVersion : Option String
  containerPort : JSNum
  deriving DecidableEq, Repr

/-- The `ecsStackProps` construction common to
`CdkStreamlitFargateDeploymentStack` (lines 55-59) and
`CdkStreamlitEcrEcsAppRunnerDeploymentStack` (lines 54-58):
`containerPort: parseInt(envTyped.PORT)`. -/
def mkEcsStackConfig (env : ProcessEnv) : EcsStackConfig :=
  let envTyped := mkEnvTyped env
  { repositoryName := envTyped.ECR_REPOSITORY_NAME
    appName := envTyped.APP_NAME
    imageVersion := envTyped.IMAGE_VERSION
    containerPort := parseIntJS (jsString envTyped.PORT) }

/-! ## Security groups and runtime platform
(`CdkFargateFrontWithVpcDeploymentStack`, edge-enabled variant:
src/unnamed/part_000 lines 256-450). -/

/-- A reference to one of the security-group objects created in the
edge-enabled stack.  `addIngressRule` receives the object itself, so
references, not names, identify the source. -/
inductive SGRef where
  | albSG
  | ecsSG
  deriving DecidableEq, Repr

/-- A traffic source accepted by an ingress rule (`ec2.Peer` or a
security group used as peer). -/
inductive IngressPeer where
  | securityGroup (ref : SGRef)
  | ipv4 (cidr : String)
  deriving DecidableEq, Repr

/-- A port specification of an ingress rule (`ec2.Port`).  The port of
`tcp` is a JavaScript number, since `containerPort` may be NaN. -/
inductive PortSpec where
  | tcp (port : JSNum)
  | allTraffic
  deriving DecidableEq, Repr

/-- One security-group ingress rule: accepted source and port range. -/
structure IngressRule where
  peer : IngressPeer
  port : PortSpec
  deriving DecidableEq, Repr

/-- Ingress rules of the load balancer security group (line 266):
`addIngressRule(ec2.Peer.ipv4('0.0.0.0/0'), ec2.Port.tcp(80))`. -/
def albIngressRules : List IngressRule :=
  [ { peer := IngressPeer.ipv4 "0.0.0.0/0", port := PortSpec.tcp (JSNum.num 80) } ]

/-- Ingress rules of the ECS (compute) security group, in declaration
order (lines 269-271): traffic from the load balancer security group on
TCP 80, traffic from the load balancer security group on the container
port, and all traffic from the ECS security group itself. -/
def ecsIngressRules (containerPort : JSNum) : List IngressRule :=
  [ { peer := IngressPeer.securityGroup SGRef.albSG, port := PortSpec.tcp (JSNum.num 80) },
    { peer := IngressPeer.securityGroup SGRef.albSG, port := PortSpec.tcp containerPort },
    { peer := IngressPeer.securityGroup SGRef.ecsSG, port := PortSpec.allTraffic } ]

/-- `ecs.CpuArchitecture` values used by the stack. -/
inductive CpuArchitecture where
  | arm64
  | x86_64
  deriving DecidableEq, Repr

/-- `ecs.OperatingSystemFamily` values used by the stack. -/
inductive OperatingSystemFamily where
  | linux
  deriving DecidableEq, Repr

/-- The runtime platform of the Fargate task (lines 337-340):
`cpuArchitecture: props.platformString === 'arm' ?
ecs.CpuArchitecture.ARM64 : ecs.CpuArchitecture.X86_64`,
`operatingSystemFamily: ecs.OperatingSystemFamily.LINUX`. -/
def runtimePlatformOf (platformString : String) : CpuArchitecture × OperatingSystemFamily :=
  (if platformString = "arm" then CpuArchitecture.arm64 else CpuArchitecture.x86_64,
   OperatingSystemFamily.linux)

/-- Modelled from the spec: the `bin//utils` platform parsing is not
under `src/`; the spec maps the `PLATFORMS` environment values to the
amd64/arm64 platform flag consumed by the stacks ("`PLATFORMS` (values
mapped to `amd64`/`arm64`)"), with `LINUX_ARM64` selecting the arm64
platform, which the stacks test as the flag value "arm" ("a
string-typed platform flag (`arm` vs. everything else)"). -/
def platformStringOf (platforms : String) : String :=
  if platforms = "LINUX_ARM64" then "arm" else "amd"

/-- The container image options passed to
`ApplicationLoadBalancedFargateService` (lines 324-330): the container
port is `props.containerPort`, passed unchanged. -/
structure TaskImageOptions where
  imageTag : String
  containerPort : JSNum
  enableLogging : Bool
  deriving DecidableEq, Repr

/-- The `taskImageOptions` object of the Fargate service declaration:
image tagged with the configured version, `containerPort` passed
through unchanged, logging enabled. -/
def fargateTaskImageOptions (imageVersion : String) (containerPort : JSNum) : TaskImageOptions :=
  { imageTag := imageVersion, containerPort := containerPort, enableLogging := true }

/-- The `CfnOutput` URL value of the edge-enabled stack (line 445):
the string `https://` followed by the distribution domain name. -/
def streamlitUrlOutput (distributionDomainName : String) : String :=
  "https://" ++ distributionDomainName

/-! ## Edge and traffic gate
(edge-enabled `CdkFargateFrontWithVpcDeploymentStack`:
src/unnamed/part_000 lines 370-448). -/

/-- Helper for `*` in a path pattern: try the continuation on every
suffix of the string (the wildcard consumes any prefix). -/
def starHelp (next : List Char → Bool) : List Char → Bool
  | [] => next []
  | c :: cs => next (c :: cs) || starHelp next cs

/-- ALB path-pattern matching: `*` matches zero or more characters,
`?` matches exactly one character, any other character matches itself;
a wildcard-free pattern matches exactly itself. -/
def patMatch : List Char → List Char → Bool
  | [], s => s.isEmpty
  | '*' :: ps, s => starHelp (patMatch ps) s
  | p :: ps, s =>
    match s with
    | [] => false
    | c :: cs => (p = '?' || p = c) && patMatch ps cs

/-- Pattern matching lifted to strings. -/
def patMatchStr (pattern s : String) : Bool :=
  patMatch pattern.toList s.toList

/-- ASCII lower-casing of one character (HTTP header names are
ASCII). -/
def lowerChar (c : Char) : Char :=
  if 'A' ≤ c ∧ c ≤ 'Z' then Char.ofNat (c.toNat + 32) else c

/-- ASCII lower-casing of a header name, for case-insensitive
comparison. -/
def lowerName (s : String) : List Char :=
  s.toList.map lowerChar

/-- An HTTP request as the load balancer sees it: a method, a path and
a list of header name/value pairs. -/
structure Request where
  method : String
  path : String
  headers : List (String × String)
  deriving DecidableEq, Repr

/-- A listener rule condition (`elbv2.ListenerCondition`): either an
HTTP-header condition (header name with a list of value patterns) or a
path-pattern condition. -/
inductive ListenerCondition where
  | httpHeader (name : String) (values : List String)
  | pathPatterns (patterns : List String)
  deriving DecidableEq, Repr

/-- Whether a request satisfies one condition.  The provider's
listener internals are out of the repository's scope, so the evaluation
semantics follows the spec: the header-condition match is an
exact-string comparison of the header value (header names compare
case-insensitively, as HTTP header names are case-insensitive), and a
path pattern is matched with the `*`/`?` wildcards, `*` being the
catch-all. -/
def condMatches (req : Request) : ListenerCondition → Bool
  | ListenerCondition.httpHeader name values =>
    req.headers.any (fun h =>
      lowerName h.1 = lowerName name && values.any (fun v => v = h.2))
  | ListenerCondition.pathPatterns patterns =>
    patterns.any (fun p => patMatchStr p req.path)

/-- A listener action: forward to a target group, or issue a redirect
with host, protocol, port and permanence flag. -/
inductive ListenerAction where
  | forward (targetGroup : String)
  | redirect (host protocol port : String) (permanent : Bool)
  deriving DecidableEq, Repr

/-- One `elbv2.ApplicationListenerRule`. -/
structure ListenerRule where
  priority : Nat
  conditions : List ListenerCondition
  action : ListenerAction
  deriving DecidableEq, Repr

/-- The secret header name of the traffic gate (line 391). -/
def customHeaderName : String := "X-Verify-Origin"

/-- The secret header value of the traffic gate (line 392):
the application name followed by `-StreamlitCloudFrontDistribution`. -/
def customHeaderValue (appName : String) : String :=
  appName ++ "-StreamlitCloudFrontDistribution"

/-- The custom headers the CloudFront `LoadBalancerV2Origin` injects on
every edge-to-origin request (lines 398-400).  In the source the object
literal is `customHeaders: { custom_header_name: customHeaderValue }`:
the key is the identifier `custom_header_name` taken literally as the
header name, not the value of the variable `customHeaderName`. -/
def cfOriginCustomHeaders (appName : String) : List (String × String) :=
  [("custom_header_name", customHeaderValue appName)]

/-- The name of the target group the priority-1 rule forwards to
(`fargateService.targetGroup`). -/
def streamlitTargetGroup : String := "StreamlitTargetGroup"

/-- The two listener rules of the edge-enabled stack, in ascending
priority order (lines 421-442): priority 1 forwards to the service
target group when the request carries the secret header with the
expected value; priority 5 redirects every path to the distribution
domain over HTTPS on port 443, permanently. -/
def streamlitListenerRules (appName distributionDomainName : String) : List ListenerRule :=
  [ { priority := 1,
      conditions := [ListenerCondition.httpHeader customHeaderName [customHeaderValue appName]],
      action := ListenerAction.forward streamlitTargetGroup },
    { priority := 5,
      conditions := [ListenerCondition.pathPatterns ["*"]],
      action := ListenerAction.redirect distributionDomainName "HTTPS" "443" true } ]

/-- The listener's default action: `ApplicationLoadBalancedFargateService`
registers the service target group as the listener default, evaluated
only when no rule matches. -/
def listenerDefaultAction : ListenerAction :=
  ListenerAction.forward streamlitTargetGroup

/-- ALB dispatch: rules are evaluated in ascending priority order
(the rule list is kept sorted by priority); the first rule all of whose
conditions match decides the action, otherwise the default action
applies. -/
def albDispatch (rules : List ListenerRule) (defaultAction : ListenerAction)
    (req : Request) : ListenerAction :=
  match rules.find? (fun r => r.conditions.all (condMatches req)) with
  | some r => r.action
  | none => defaultAction

/-- Outcome of a request at the edge-enabled stack's load balancer. -/
def streamlitAlbOutcome (appName distributionDomainName : String) (req : Request) :
    ListenerAction :=
  albDispatch (streamlitListenerRules appName distributionDomainName)
    listenerDefaultAction req

/-- Whether a request carries the secret gate header: a header whose
name is `X-Verify-Origin` (case-insensitively) with exactly the value
`<appName>-StreamlitCloudFrontDistribution`. -/
def hasSecretHeader (appName : String) (req : Request) : Bool :=
  req.headers.any (fun h =>
    lowerName h.1 = "x-verify-origin".toList && h.2 = customHeaderValue appName)

/-- Result of the CloudFront function on a viewer request: either a
synthesized response (status code, status description, headers) or the
request passed through to the origin. -/
inductive CFHandlerResult where
  | response (statusCode : Nat) (statusDescription : String)
      (headers : List (String × String))
  | request (req : Request)
  deriving DecidableEq, Repr

/-- The inline CloudFront function (lines 372-387): an `OPTIONS`
request receives a synthesized 204 response with permissive CORS
headers; any other request is returned unmodified. -/
def corsFunctionHandler (req : Request) : CFHandlerResult :=
  if req.method = "OPTIONS" then
    CFHandlerResult.response 204 "OK"
      [("access-control-allow-origin", "*"), ("access-control-allow-headers", "*")]
  else
    CFHandlerResult.request req

/-- The process environment of the spec's end-to-end scenario:
APP_NAME=demo, IMAGE_VERSION=1.2.0, PORT=8501 (PLATFORMS is consumed by
the platform parsing, ECR_REPOSITORY_NAME by the registry stack). -/
def demoEnv : ProcessEnv := fun name =>
  if name = "APP_NAME" then some "demo"
  else if name = "IMAGE_VERSION" then some "1.2.0"
  else if name = "PORT" then some "8501"
  else if name = "ECR_REPOSITORY_NAME" then some "demo-repo"
  else none

/-! ## Helper lemmas -/

/-- `starHelp` succeeds whenever its continuation accepts the empty
suffix. -/
lemma starHelp_of_nil (next : List Char → Bool) (h : next [] = true) :
    ∀ s, starHelp next s = true := by
  intro s
  induction s with
  | nil => simpa [starHelp] using h
  | cons c cs ih => simp [starHelp, ih]

/-- The path pattern `*` matches every path. -/
lemma patMatch_star (s : List Char) : patMatch ['*'] s = true :=
  starHelp_of_nil (patMatch []) rfl s

/-- The priority-1 header condition of the gate holds exactly when the
request carries the secret header. -/
lemma condMatches_secret (appName : String) (req : Request) :
    condMatches req
        (ListenerCondition.httpHeader customHeaderName [customHeaderValue appName]) =
      hasSecretHeader appName req := by
  unfold condMatches hasSecretHeader customHeaderName
  have hlow : lowerName "X-Verify-Origin" = "x-verify-origin".toList := by decide
  simp only [hlow]
  rw [Bool.eq_iff_iff]
  simp only [List.any_eq_true, List.any_cons, List.any_nil, Bool.or_false,
    Bool.and_eq_true, decide_eq_true_eq]
  constructor
  · rintro ⟨h, hmem, h1, h2⟩
    exact ⟨h, hmem, h1, h2.symm⟩
  · rintro ⟨h, hmem, h1, h2⟩
    exact ⟨h, hmem, h1, h2.symm⟩

/-! ## Claim theorems -/

/-- C1: in the edge-enabled deployment, a request at the load balancer
is forwarded to the service target group if and only if it carries the
header X-Verify-Origin with the exact value
appName-StreamlitCloudFrontDistribution (priority-1 rule); any other
request receives a permanent redirect to the distribution domain over
HTTPS on port 443 (priority-5 catch-all), and no third outcome exists:
the dispatch is total and the listener default action is unreachable
because the catch-all path pattern matches every path. -/
theorem c1_alb_gate (appName domain : String) (req : Request) :
    (streamlitAlbOutcome appName domain req =
        ListenerAction.forward streamlitTargetGroup ↔
      hasSecretHeader appName req = true)
    ∧ (hasSecretHeader appName req = false →
        streamlitAlbOutcome appName domain req =
          ListenerAction.redirect domain "HTTPS" "443" true) := by
  have h1 := condMatches_secret appName req
  have h2 : condMatches req (ListenerCondition.pathPatterns ["*"]) = true := by
    have hstar := patMatch_star req.path.toList
    simp only [condMatches, patMatchStr, List.any_cons, List.any_nil, Bool.or_false]
    exact hstar
  cases hs : hasSecretHeader appName req with
  | false =>
    have hout : streamlitAlbOutcome appName domain req =
        ListenerAction.redirect domain "HTTPS" "443" true := by
      simp [streamlitAlbOutcome, albDispatch, streamlitListenerRules, List.find?,
        List.all_cons, List.all_nil, h1, h2, hs]
    refine ⟨?_, fun _ => hout⟩
    rw [hout]
    simp
  | true =>
    have hout : streamlitAlbOutcome appName domain req =
        ListenerAction.forward streamlitTargetGroup := by
      simp [streamlitAlbOutcome, albDispatch, streamlitListenerRules, List.find?,
        List.all_cons, List.all_nil, h1, h2, hs]
    exact ⟨by simp [hout], fun hfalse => by cases hfalse⟩

/-- Witness for C1 at a concrete deployment: without the secret header
the request is permanently redirected to the edge domain; with it the
request is forwarded to the service target group. -/
theorem c1_alb_gate_witness :
    streamlitAlbOutcome "demo" "d123.cloudfront.net"
        { method := "GET", path := "/", headers := [] } =
      ListenerAction.redirect "d123.cloudfront.net" "HTTPS" "443" true
    ∧ streamlitAlbOutcome "demo" "d123.cloudfront.net"
        { method := "GET", path := "/",
          headers := [("X-Verify-Origin", "demo-StreamlitCloudFrontDistribution")] } =
      ListenerAction.forward streamlitTargetGroup :=
  ⟨(c1_alb_gate "demo" "d123.cloudfront.net"
      { method := "GET", path := "/", headers := [] }).2 (by decide),
   (c1_alb_gate "demo" "d123.cloudfront.net"
      { method := "GET", path := "/",
        headers := [("X-Verify-Origin", "demo-StreamlitCloudFrontDistribution")] }).1.mpr
      (by decide)⟩

/-- C2 (failing): the edge layer does not inject the header name the
priority-1 rule matches.  The source object literal `customHeaders:
\x7b custom_header_name: customHeaderValue \x7d` uses the identifier
as a literal key, so the injected header is named custom_header_name,
not X-Verify-Origin; at appName = demo no injected header is named
X-Verify-Origin (even case-insensitively), and a request carrying
exactly the edge-injected headers is redirected, not forwarded. -/
theorem c2_header_name_mismatch :
    cfOriginCustomHeaders "demo" =
      [("custom_header_name", "demo-StreamlitCloudFrontDistribution")]
    ∧ ((cfOriginCustomHeaders "demo").any
        (fun h => lowerName h.1 = lowerName customHeaderName)) = false
    ∧ streamlitAlbOutcome "demo" "d123.cloudfront.net"
        { method := "GET", path := "/", headers := cfOriginCustomHeaders "demo" } =
      ListenerAction.redirect "d123.cloudfront.net" "HTTPS" "443" true := by
  refine ⟨rfl, by decide, ?_⟩
  decide

/-- C3: when the requested image version differs from the sentinel
latest, the registry stack declares exactly two tagged pushes, for the
requested version and for latest; when it equals the sentinel, exactly
one push is declared. -/
theorem c3_push_versions (imageUri repositoryUri v : String) :
    (v ≠ LATEST_IMAGE_VERSION →
      deployImageVersions v = [v, LATEST_IMAGE_VERSION]
      ∧ (ecrDeployments imageUri repositoryUri v).map ECRDeployment.dest =
          [repositoryUri ++ ":" ++ v, repositoryUri ++ ":" ++ LATEST_IMAGE_VERSION]
      ∧ (ecrDeployments imageUri repositoryUri v).length = 2)
    ∧ (v = LATEST_IMAGE_VERSION →
      deployImageVersions v = [v]
      ∧ (ecrDeployments imageUri repositoryUri v).length = 1) := by
  constructor
  · intro h
    simp [deployImageVersions, ecrDeployments, h]
  · intro h
    simp [deployImageVersions, ecrDeployments, h]

/-- Witness for C3 at concrete versions: 1.2.0 yields the two pushes
1.2.0 and latest; the sentinel yields a single push. -/
theorem c3_push_versions_witness :
    deployImageVersions "1.2.0" = ["1.2.0", "latest"]
    ∧ deployImageVersions "latest" = ["latest"] :=
  ⟨((c3_push_versions "u" "r" "1.2.0").1 (by decide)).1,
   ((c3_push_versions "u" "r" "latest").2 rfl).1⟩

/-- C4: for every configuration, the registry declares exactly the two
lifecycle rules, priority 1 deleting untagged images older than 7 days
and priority 2 keeping only the 4 most recent images of any tag, and
the declared rules do not depend on the configuration. -/
theorem c4_lifecycle_rules (p q : StreamlitEcrStackProps) :
    ecrLifecycleRules p =
      [ { rulePriority := 1, tagStatus := TagStatus.untagged,
          maxImageAgeDays := some 7, maxImageCount := none },
        { rulePriority := 2, tagStatus := TagStatus.any,
          maxImageAgeDays := none, maxImageCount := some 4 } ]
    ∧ ecrLifecycleRules p = ecrLifecycleRules q :=
  ⟨rfl, rfl⟩

/-- C5: in the edge-enabled topology the compute security group's
inbound rules are exactly: the load balancer security group on TCP 80,
the load balancer security group on the container port, and the
compute security group itself on all traffic; consequently every
inbound source is either the load balancer security group or the
compute group itself. -/
theorem c5_ecs_ingress (containerPort : JSNum) :
    ecsIngressRules containerPort =
      [ { peer := IngressPeer.securityGroup SGRef.albSG,
          port := PortSpec.tcp (JSNum.num 80) },
        { peer := IngressPeer.securityGroup SGRef.albSG,
          port := PortSpec.tcp containerPort },
        { peer := IngressPeer.securityGroup SGRef.ecsSG,
          port := PortSpec.allTraffic } ]
    ∧ ∀ r ∈ ecsIngressRules containerPort,
        r.peer = IngressPeer.securityGroup SGRef.albSG
        ∨ r.peer = IngressPeer.securityGroup SGRef.ecsSG := by
  refine ⟨rfl, ?_⟩
  intro r hr
  simp only [ecsIngressRules, List.mem_cons, List.not_mem_nil, or_false] at hr
  rcases hr with rfl | rfl | rfl
  · exact Or.inl rfl
  · exact Or.inl rfl
  · exact Or.inr rfl

/-- Witness for C5 at container port 8501: the first ingress rule's
source is the load balancer security group. -/
theorem c5_ecs_ingress_witness :
    ({ peer := IngressPeer.securityGroup SGRef.albSG,
       port := PortSpec.tcp (JSNum.num 80) } : IngressRule).peer =
        IngressPeer.securityGroup SGRef.albSG
    ∨ ({ peer := IngressPeer.securityGroup SGRef.albSG,
         port := PortSpec.tcp (JSNum.num 80) } : IngressRule).peer =
        IngressPeer.securityGroup SGRef.ecsSG :=
  (c5_ecs_ingress (JSNum.num 8501)).2
    { peer := IngressPeer.securityGroup SGRef.albSG,
      port := PortSpec.tcp (JSNum.num 80) } (by decide)

/-- C6: the edge-side viewer-request function answers an OPTIONS
request with a synthesized 204 response carrying the permissive CORS
headers and never passes it on; any non-OPTIONS request is returned
unmodified to proceed to the origin. -/
theorem c6_cors_function (req : Request) :
    (req.method = "OPTIONS" →
      corsFunctionHandler req =
        CFHandlerResult.response 204 "OK"
          [("access-control-allow-origin", "*"), ("access-control-allow-headers", "*")])
    ∧ (req.method ≠ "OPTIONS" →
      corsFunctionHandler req = CFHandlerResult.request req) := by
  constructor
  · intro h
    simp [corsFunctionHandler, h]
  · intro h
    simp [corsFunctionHandler, h]

/-- Witness for C6: a concrete OPTIONS request is answered with the
synthesized CORS response, and a GET request passes through. -/
theorem c6_cors_function_witness :
    corsFunctionHandler { method := "OPTIONS", path := "/", headers := [] } =
      CFHandlerResult.response 204 "OK"
        [("access-control-allow-origin", "*"), ("access-control-allow-headers", "*")]
    ∧ corsFunctionHandler { method := "GET", path := "/", headers := [] } =
      CFHandlerResult.request { method := "GET", path := "/", headers := [] } :=
  ⟨(c6_cors_function { method := "OPTIONS", path := "/", headers := [] }).1 rfl,
   (c6_cors_function { method := "GET", path := "/", headers := [] }).2 (by decide)⟩

/-- C7: end-to-end scenario APP_NAME=demo, IMAGE_VERSION=1.2.0,
PORT=8501, PLATFORMS=LINUX_ARM64: the configuration resolves image
version 1.2.0 and container port 8501, the registry pushes tags 1.2.0
and latest, the runtime platform resolves to ARM64 on Linux, and the
emitted URL output is the string https:// followed by the distribution
domain. -/
theorem c7_scenario :
    (mkEcsStackConfig demoEnv).imageVersion = some "1.2.0"
    ∧ (mkEcsStackConfig demoEnv).containerPort = JSNum.num 8501
    ∧ (ecrDeployments "asset-uri" "repo-uri" "1.2.0").map ECRDeployment.dest =
        ["repo-uri:1.2.0", "repo-uri:latest"]
    ∧ runtimePlatformOf (platformStringOf "LINUX_ARM64") =
        (CpuArchitecture.arm64, OperatingSystemFamily.linux)
    ∧ streamlitUrlOutput "d123.cloudfront.net" = "https://d123.cloudfront.net" := by
  refine ⟨rfl, by decide, by decide, rfl, rfl⟩

/-- C8 counterexample: with every required environment input absent,
configuration resolution does not fail at the non-null assertions: the
TypeScript `!` is erased at runtime, so the record is built with each
field absent (`undefined`), and the derived configuration carries the
absent names and a NaN container port instead of raising an error. -/
theorem c8_counterexample :
    mkEnvTyped (fun _ => none) =
      { ECR_REPOSITORY_NAME := none, APP_NAME := none,
        IMAGE_VERSION := none, PORT := none }
    ∧ mkEcsStackConfig (fun _ => none) =
      { repositoryName := none, appName := none,
        imageVersion := none, containerPort := JSNum.nan } :=
  ⟨rfl, by decide⟩

/-- C8 amended: when a required environment input is absent, the
non-null assertions perform no runtime check; configuration resolution
proceeds, each field holds exactly the (possibly absent) environment
value, and an absent PORT flows through parseInt as the coerced string
undefined, yielding a NaN container port. -/
theorem c8_amended (env : ProcessEnv) :
    mkEnvTyped env =
      { ECR_REPOSITORY_NAME := env "ECR_REPOSITORY_NAME",
        APP_NAME := env "APP_NAME",
        IMAGE_VERSION := env "IMAGE_VERSION",
        PORT := env "PORT" }
    ∧ (env "PORT" = none →
        (mkEcsStackConfig env).containerPort = JSNum.nan) := by
  refine ⟨rfl, ?_⟩
  intro h
  simp only [mkEcsStackConfig, mkEnvTyped, h]
  decide

/-- Witness for the amended C8 at the empty environment: PORT is
absent and the container port resolves to NaN. -/
theorem c8_amended_witness :
    (fun (_ : String) => (none : Option String)) "PORT" = none
    ∧ (mkEcsStackConfig (fun _ => none)).containerPort = JSNum.nan :=
  ⟨rfl, (c8_amended (fun _ => none)).2 rfl⟩

/-- C9: the container port is parseInt of the PORT input with no
validation or error branch: a string with a numeric prefix is
truncated to that prefix, a string without one (including the empty
string) yields NaN, and the resulting value is passed unchanged into
the compute security group's ingress rule and the container
declaration. -/
theorem c9_port_parsing :
    (∀ env : ProcessEnv,
      (mkEcsStackConfig env).containerPort = parseIntJS (jsString (env "PORT")))
    ∧ parseIntJS "8501abc" = JSNum.num 8501
    ∧ parseIntJS "" = JSNum.nan
    ∧ parseIntJS "abc" = JSNum.nan
    ∧ (∀ p : JSNum,
        (ecsIngressRules p)[1]? =
          some { peer := IngressPeer.securityGroup SGRef.albSG,
                 port := PortSpec.tcp p }
        ∧ (fargateTaskImageOptions "latest" p).containerPort = p) :=
  ⟨fun _ => rfl, by decide, by decide, by decide, fun _ => ⟨rfl, rfl⟩⟩

/-- C10: every declared registry push takes its source from the single
image asset URI built in the stack, so when two pushes are declared
(version different from latest) both tags reference the identical
image. -/
theorem c10_single_image_source (imageUri repositoryUri v : String) :
    (∀ d ∈ ecrDeployments imageUri repositoryUri v, d.src = imageUri)
    ∧ (v ≠ LATEST_IMAGE_VERSION →
        (ecrDeployments imageUri repositoryUri v).length = 2
        ∧ (ecrDeployments imageUri repositoryUri v).map ECRDeployment.src =
            [imageUri, imageUri]) := by
  constructor
  · intro d hd
    simp only [ecrDeployments, List.mem_map] at hd
    obtain ⟨x, _, rfl⟩ := hd
    rfl
  · intro h
    simp [ecrDeployments, deployImageVersions, h]

/-- Witness for C10 at concrete inputs: both pushes for version 1.2.0
read from the same asset URI. -/
theorem c10_single_image_source_witness :
    ({ src := "u", dest := "r:1.2.0" } : ECRDeployment).src = "u"
    ∧ (ecrDeployments "u" "r" "1.2.0").length = 2 :=
  ⟨(c10_single_image_source "u" "r" "1.2.0").1
      { src := "u", dest := "r:1.2.0" } (by decide),
   ((c10_single_image_source "u" "r" "1.2.0").2 (by decide)).1⟩
